import Mathlib

/-!
Verification of the parking-lot simulation program (src/main.cpp).

The program is a single-file C++ console application: three vehicle
categories (Car, Truck, Motorbike) with hourly fees, a registry of
parked vehicles with capacity 7 and a revenue accumulator, and a flat
text persistence format "TYPE PLATE EPOCHSECONDS", one record per line.

Modelling choices:
- time_t values are modelled as Int; difftime(now, entry) is the exact
  integer difference, and the double arithmetic of the fee formula is
  modelled with exact rationals (the values involved are far below the
  range where IEEE rounding could change any of the stated properties).
- The persisted store is modelled as its sequence of whitespace-separated
  tokens (List String).  This is faithful because loadData reads the file
  exclusively through operator>>, which sees only that token sequence,
  and saveData separates the three fields of a record by single spaces
  and terminates each record by a newline, so when plates are non-empty
  and whitespace-free the emitted token sequence is exactly the
  concatenation of the per-record triples.
- Numeric extraction (operator>> into time_t) is modelled as parsing the
  whole token as an optionally signed decimal integer; when the parse
  fails the stream enters the fail state and the read loop exits, which
  the model renders by returning the records accumulated so far and
  discarding the rest of the token stream.  Real formatted extraction
  instead consumes a maximal sign-and-digit prefix, leaving any trailing
  characters in the stream, and sets the fail state on a numeral whose
  value does not fit in time_t.  The whole-token model therefore agrees
  with the program exactly on the two timestamp-token shapes the theorems
  below quantify over: an optionally signed numeral whose value fits in
  the signed 64-bit time_t (both consume the token and succeed, the
  model's unbounded Int matching time_t on that range), and a token whose
  first character is neither a digit nor a sign (both fail immediately
  with nothing extracted, ending the read loop) — the shape produced when
  a timestamp field is missing and the following record's category name
  is read in its place.  Tokens with a proper digit prefix (12ab) or an
  out-of-range numeral behave differently in the program (prefix success
  with a desynchronised stream, or an overflow failure) and lie outside
  every theorem's hypotheses; stores written by saveData never contain
  them.
- operator<< on an integer is modelled by an explicit decimal printer
  (natToDigits / intRepr), written with fuel so that it is structurally
  recursive and evaluates by kernel reduction.
- The Vehicle constructor treats an entry argument of 0 as a sentinel
  meaning "use the current time"; Vehicle.mkV models this, which matters
  when loadData reconstructs a vehicle from a stored timestamp.
-/

/-- The three concrete vehicle classes of the source, as a closed tag. -/
inductive VType where
  | Car
  | Truck
  | Motorbike
deriving DecidableEq

/-- The `type` string each class constructor stores (Car sets "Car", etc.). -/
def typeName : VType → String
  | VType.Car => "Car"
  | VType.Truck => "Truck"
  | VType.Motorbike => "Motorbike"

/-- The hourly rate of each class, as named by the spec (Standard = Car = 20,
Large = Truck = 50, Light = Motorbike = 10). -/
def rate : VType → ℚ
  | VType.Car => 20
  | VType.Truck => 50
  | VType.Motorbike => 10

/-- One parked vehicle: the data members of class Vehicle
(licensePlate, type, entryTime), with the dynamic class tag standing for
the derived class. -/
structure Vehicle where
  licensePlate : String
  type : VType
  entryTime : Int
deriving DecidableEq

/-- The Vehicle constructor: if the entry argument is 0 it stores the
current time, otherwise the given value.  `now` is the value time(0)
would return at construction. -/
def Vehicle.mkV (plate : String) (t : VType) (entry : Int) (now : Int) : Vehicle :=
  { licensePlate := plate, type := t, entryTime := if entry = 0 then now else entry }

/-- Car::calculateFee: rate 20.0 per hour, elapsed seconds divided by 3600,
clamped below at one hour. -/
def Car.calculateFee (entryTime now : Int) : ℚ :=
  let hourlyRate : ℚ := 20
  let hours : ℚ := ((now - entryTime : Int) : ℚ) / 3600
  let hours := if hours < 1 then 1 else hours
  hours * hourlyRate

/-- Truck::calculateFee: rate 50.0 per hour, same clamping. -/
def Truck.calculateFee (entryTime now : Int) : ℚ :=
  let hourlyRate : ℚ := 50
  let hours : ℚ := ((now - entryTime : Int) : ℚ) / 3600
  let hours := if hours < 1 then 1 else hours
  hours * hourlyRate

/-- Motorbike::calculateFee: rate 10.0 per hour, same clamping. -/
def Motorbike.calculateFee (entryTime now : Int) : ℚ :=
  let hourlyRate : ℚ := 10
  let hours : ℚ := ((now - entryTime : Int) : ℚ) / 3600
  let hours := if hours < 1 then 1 else hours
  hours * hourlyRate

/-- Virtual dispatch of calculateFee on the dynamic class of the vehicle. -/
def Vehicle.calculateFee (v : Vehicle) (now : Int) : ℚ :=
  match v.type with
  | VType.Car => Car.calculateFee v.entryTime now
  | VType.Truck => Truck.calculateFee v.entryTime now
  | VType.Motorbike => Motorbike.calculateFee v.entryTime now

/-- ParkingLot state: the vector of parked vehicles and the revenue
accumulator.  The capacity is a constant, kept outside the structure. -/
structure ParkingLot where
  parkedVehicles : List Vehicle
  totalRevenue : ℚ
deriving DecidableEq

/-- const int capacity = 7. -/
def capacity : Nat := 7

/-- ParkingLot::parkVehicle: reject (and discard the vehicle) when the lot
holds at least `capacity` vehicles, otherwise push_back.  The Bool reports
success to the caller (the console message). -/
def parkVehicle (lot : ParkingLot) (v : Vehicle) : ParkingLot × Bool :=
  if lot.parkedVehicles.length ≥ capacity then
    (lot, false)
  else
    ({ lot with parkedVehicles := lot.parkedVehicles ++ [v] }, true)

/-- The search-and-erase loop of ParkingLot::unparkVehicle: scan in
admission order, remove the first vehicle whose plate matches, and report
the removed vehicle together with its computed fee. -/
def unparkGo (plate : String) (now : Int) : List Vehicle → List Vehicle × Option (Vehicle × ℚ)
  | [] => ([], none)
  | v :: rest =>
    if v.licensePlate = plate then
      (rest, some (v, v.calculateFee now))
    else
      let r := unparkGo plate now rest
      (v :: r.1, r.2)

/-- ParkingLot::unparkVehicle: on a match, add the fee to totalRevenue and
erase the vehicle (the Option carries the printed receipt: vehicle and
fee); on no match, print the not-found error and leave the lot unchanged. -/
def unparkVehicle (lot : ParkingLot) (plate : String) (now : Int) :
    ParkingLot × Option (Vehicle × ℚ) :=
  match unparkGo plate now lot.parkedVehicles with
  | (l, some r) =>
      ({ parkedVehicles := l, totalRevenue := lot.totalRevenue + r.2 }, some r)
  | (_, none) => (lot, none)

/-- The decimal digit character for a value below ten. -/
def digitChar (d : Nat) : Char :=
  Char.ofNat (48 + d)

/-- The numeric value of a decimal digit character, if it is one. -/
def digitVal (c : Char) : Option Nat :=
  if ('0' ≤ c ∧ c ≤ '9') then some (c.toNat - 48) else none

/-- Decimal printing of a natural number, most significant digit first,
with explicit fuel (always called with fuel greater than the number, which
suffices because the argument shrinks by a factor of ten each step). -/
def natToDigitsAux : Nat → Nat → List Char
  | 0, _ => []
  | fuel + 1, n =>
    if n < 10 then [digitChar n]
    else natToDigitsAux fuel (n / 10) ++ [digitChar (n % 10)]

/-- Decimal printing of a natural number (model of operator<< on an
unsigned value). -/
def natToDigits (n : Nat) : List Char :=
  natToDigitsAux (n + 1) n

/-- Accumulator loop of decimal parsing: fails at the first non-digit. -/
def parseNatAux : List Char → Nat → Option Nat
  | [], acc => some acc
  | c :: cs, acc =>
    match digitVal c with
    | some d => parseNatAux cs (10 * acc + d)
    | none => none

/-- Parse an unsigned decimal numeral; the empty token fails (operator>>
requires at least one digit). -/
def parseNat : List Char → Option Nat
  | [] => none
  | cs => parseNatAux cs 0

/-- Parse an optionally signed decimal numeral: the model of operator>>
into time_t applied to one whitespace token.  Faithful to formatted
extraction on tokens that are in-range numerals (both succeed with the
same value) and on tokens whose first character is neither a digit nor a
sign (both fail with nothing extracted); see the header note for the
digit-prefix and overflow shapes on which the whole-token model deviates
and which no theorem below quantifies over. -/
def parseInt (cs : List Char) : Option Int :=
  match cs with
  | [] => none
  | c :: rest =>
    if c = '-' then (parseNat rest).map (fun m => -(m : Int))
    else if c = '+' then (parseNat rest).map (fun m => (m : Int))
    else (parseNat (c :: rest)).map (fun m => (m : Int))

/-- Decimal printing of a time_t value (model of operator<< on a signed
integer). -/
def intRepr (n : Int) : String :=
  if n < 0 then String.mk ('-' :: natToDigits (-n).toNat)
  else String.mk (natToDigits n.toNat)

/-- A string that survives tokenisation as a single token: non-empty and
free of whitespace. -/
def tokenOk (s : String) : Bool :=
  !s.isEmpty && s.data.all (fun c => c != ' ' && c != '\n' && c != '\t' && c != '\r')

/-- ParkingLot::saveData, at the token level: for each parked vehicle, in
registry order, the three tokens TYPE PLATE ENTRYTIME. -/
def saveTokens : List Vehicle → List String
  | [] => []
  | v :: vs => typeName v.type :: v.licensePlate :: intRepr v.entryTime :: saveTokens vs

/-- ParkingLot::saveData: writes only the parked vehicles, never the
revenue. -/
def saveData (lot : ParkingLot) : List String :=
  saveTokens lot.parkedVehicles

/-- ParkingLot::loadData, at the token level: while three tokens can be
read and the third parses as an integer, reconstruct a vehicle via the
category-name mapping (an unrecognised name is dropped and reading
continues); when the integer parse fails the stream enters the fail state
and the loop exits, discarding everything after.  `now` is the value
time(0) returns during loading, used by the Vehicle constructor when the
stored timestamp is the sentinel 0.  The token-level reading is faithful
on stores whose timestamp fields are in-range numerals or tokens starting
with a non-digit non-sign character (the header note spells out the
agreement with formatted extraction); the theorems below stay on that
domain. -/
def loadTokens (now : Int) : List String → List Vehicle
  | t :: p :: e :: rest =>
    match parseInt e.data with
    | some n =>
      let tail := loadTokens now rest
      if t = "Car" then Vehicle.mkV p VType.Car n now :: tail
      else if t = "Truck" then Vehicle.mkV p VType.Truck n now :: tail
      else if t = "Motorbike" then Vehicle.mkV p VType.Motorbike n now :: tail
      else tail
    | none => []
  | _ => []

/-- The ParkingLot constructor: totalRevenue starts at 0.0 and loadData
fills the vehicle vector from the store. -/
def ParkingLot.init (now : Int) (store : List String) : ParkingLot :=
  { parkedVehicles := loadTokens now store, totalRevenue := 0 }

/-! ### Helper lemmas about the fee computation -/

theorem clamp_mul (hrs r : ℚ) : (if hrs < 1 then 1 else hrs) * r = r * max 1 hrs := by
  rcases lt_or_le hrs 1 with h | h
  · rw [if_pos h, max_eq_left h.le, one_mul, mul_one]
  · rw [if_neg (not_lt.mpr h), max_eq_right h, mul_comm]

theorem car_fee_eq (e now : Int) :
    Car.calculateFee e now = 20 * max 1 (((now - e : Int) : ℚ) / 3600) := by
  simp only [Car.calculateFee]
  exact clamp_mul _ _

theorem truck_fee_eq (e now : Int) :
    Truck.calculateFee e now = 50 * max 1 (((now - e : Int) : ℚ) / 3600) := by
  simp only [Truck.calculateFee]
  exact clamp_mul _ _

theorem motorbike_fee_eq (e now : Int) :
    Motorbike.calculateFee e now = 10 * max 1 (((now - e : Int) : ℚ) / 3600) := by
  simp only [Motorbike.calculateFee]
  exact clamp_mul _ _

theorem calculateFee_eq (v : Vehicle) (now : Int) :
    v.calculateFee now = rate v.type * max 1 (((now - v.entryTime : Int) : ℚ) / 3600) := by
  rcases v with ⟨p, t, e⟩
  cases t <;>
    simp [Vehicle.calculateFee, rate, car_fee_eq, truck_fee_eq, motorbike_fee_eq]

theorem rate_pos (c : VType) : 0 < rate c := by
  cases c <;> norm_num [rate]

theorem one_le_max_hours (x : ℚ) : (1 : ℚ) ≤ max 1 x := le_max_left _ _

/-! ### Claim theorems about fees -/

/-- C1: for every category and every entry instant not later than now, the
fee computed at release equals rate times max(1, (now - entry)/3600) with
rates 20, 50 and 10, and is non-negative. -/
theorem c1_release_fee (entry now : Int) (h : entry ≤ now) :
    (Car.calculateFee entry now = 20 * max 1 (((now - entry : Int) : ℚ) / 3600) ∧
      0 ≤ Car.calculateFee entry now) ∧
    (Truck.calculateFee entry now = 50 * max 1 (((now - entry : Int) : ℚ) / 3600) ∧
      0 ≤ Truck.calculateFee entry now) ∧
    (Motorbike.calculateFee entry now = 10 * max 1 (((now - entry : Int) : ℚ) / 3600) ∧
      0 ≤ Motorbike.calculateFee entry now) := by
  have hm : (0 : ℚ) ≤ max 1 (((now - entry : Int) : ℚ) / 3600) :=
    le_trans zero_le_one (one_le_max_hours _)
  refine ⟨⟨car_fee_eq entry now, ?_⟩, ⟨truck_fee_eq entry now, ?_⟩,
    ⟨motorbike_fee_eq entry now, ?_⟩⟩
  · rw [car_fee_eq]
    exact mul_nonneg (by norm_num) hm
  · rw [truck_fee_eq]
    exact mul_nonneg (by norm_num) hm
  · rw [motorbike_fee_eq]
    exact mul_nonneg (by norm_num) hm

/-- Witness for C1 at entry 0 and now 7200. -/
theorem c1_release_fee_witness :
    (0 : Int) ≤ 7200 ∧
    ((Car.calculateFee 0 7200 = 20 * max 1 (((7200 - 0 : Int) : ℚ) / 3600) ∧
        0 ≤ Car.calculateFee 0 7200) ∧
      (Truck.calculateFee 0 7200 = 50 * max 1 (((7200 - 0 : Int) : ℚ) / 3600) ∧
        0 ≤ Truck.calculateFee 0 7200) ∧
      (Motorbike.calculateFee 0 7200 = 10 * max 1 (((7200 - 0 : Int) : ℚ) / 3600) ∧
        0 ≤ Motorbike.calculateFee 0 7200)) :=
  ⟨by norm_num, c1_release_fee 0 7200 (by norm_num)⟩

/-- C8: the fee is non-decreasing in the parked duration, and for a
non-negative duration it equals the hourly rate exactly when the duration
is at most one hour (3600 seconds). -/
theorem c8_fee_monotone (c : VType) (p : String) (now d1 d2 : Int)
    (h0 : 0 ≤ d1) (h12 : d1 ≤ d2) :
    Vehicle.calculateFee ⟨p, c, now - d1⟩ now ≤ Vehicle.calculateFee ⟨p, c, now - d2⟩ now ∧
    (Vehicle.calculateFee ⟨p, c, now - d1⟩ now = rate c ↔ d1 ≤ 3600) := by
  have key : ∀ d : Int, Vehicle.calculateFee ⟨p, c, now - d⟩ now =
      rate c * max 1 ((d : ℚ) / 3600) := by
    intro d
    rw [calculateFee_eq]
    have hd : (now - (now - d) : Int) = d := by ring
    simp [hd]
  rw [key d1, key d2]
  constructor
  · apply mul_le_mul_of_nonneg_left _ (rate_pos c).le
    apply max_le_max le_rfl
    rw [div_le_div_iff_of_pos_right (by norm_num)]
    exact_mod_cast h12
  · constructor
    · intro h
      have h1 : rate c * max 1 ((d1 : ℚ) / 3600) = rate c * 1 := by
        rw [mul_one]; exact h
      have h2 : max 1 ((d1 : ℚ) / 3600) = 1 :=
        mul_left_cancel₀ (ne_of_gt (rate_pos c)) h1
      have h3 : (d1 : ℚ) / 3600 ≤ 1 := max_eq_left_iff.mp h2
      rw [div_le_one (by norm_num)] at h3
      exact_mod_cast h3
    · intro h
      have h3 : (d1 : ℚ) / 3600 ≤ 1 := by
        rw [div_le_one (by norm_num)]
        exact_mod_cast h
      rw [max_eq_left h3, mul_one]

/-- Witness for C8 with a Car parked 1800 then 7200 seconds. -/
theorem c8_fee_monotone_witness :
    (0 : Int) ≤ 1800 ∧ (1800 : Int) ≤ 7200 ∧
    (Vehicle.calculateFee ⟨"P", VType.Car, 4000 - 1800⟩ 4000 ≤
        Vehicle.calculateFee ⟨"P", VType.Car, 4000 - 7200⟩ 4000 ∧
      (Vehicle.calculateFee ⟨"P", VType.Car, 4000 - 1800⟩ 4000 = rate VType.Car ↔
        (1800 : Int) ≤ 3600)) :=
  ⟨by norm_num, by norm_num,
    c8_fee_monotone VType.Car "P" 4000 1800 7200 (by norm_num) (by norm_num)⟩

/-- C10: for every category and every entry instant, even one in the
future, the fee is at least one full hour at the category rate (which is
positive), because an elapsed time below one hour is clamped to one hour. -/
theorem c10_fee_min (c : VType) (p : String) (entry now : Int) :
    0 < rate c ∧ rate c ≤ Vehicle.calculateFee ⟨p, c, entry⟩ now ∧
    (now - entry ≤ 3600 → Vehicle.calculateFee ⟨p, c, entry⟩ now = rate c) := by
  refine ⟨rate_pos c, ?_, ?_⟩
  · rw [calculateFee_eq]
    simp only
    exact le_mul_of_one_le_right (rate_pos c).le (one_le_max_hours _)
  · intro h
    rw [calculateFee_eq]
    simp only
    have h3 : ((now - entry : Int) : ℚ) / 3600 ≤ 1 := by
      rw [div_le_one (by norm_num)]
      exact_mod_cast h
    rw [max_eq_left h3, mul_one]

/-- Witness for C10: a Truck whose entry instant lies in the future of the
clock still pays the one-hour minimum. -/
theorem c10_fee_min_witness :
    (50 : Int) - 100 ≤ 3600 ∧
    Vehicle.calculateFee ⟨"T", VType.Truck, 100⟩ 50 = rate VType.Truck :=
  ⟨by norm_num, (c10_fee_min VType.Truck "T" 100 50).2.2 (by norm_num)⟩

/-! ### Helper lemmas about the registry operations -/

theorem unparkGo_found (plate : String) (now : Int) (pre post : List Vehicle) (v : Vehicle)
    (hpre : ∀ u ∈ pre, u.licensePlate ≠ plate) (hv : v.licensePlate = plate) :
    unparkGo plate now (pre ++ v :: post) = (pre ++ post, some (v, v.calculateFee now)) := by
  induction pre with
  | nil => simp [unparkGo, hv]
  | cons u us ih =>
    have hu : u.licensePlate ≠ plate := hpre u (by simp)
    have hrec := ih (fun w hw => hpre w (by simp [hw]))
    simp [unparkGo, hu, hrec]

theorem unparkGo_not_found (plate : String) (now : Int) (l : List Vehicle)
    (h : ∀ u ∈ l, u.licensePlate ≠ plate) :
    unparkGo plate now l = (l, none) := by
  induction l with
  | nil => simp [unparkGo]
  | cons u us ih =>
    have hu : u.licensePlate ≠ plate := h u (by simp)
    have hrec := ih (fun w hw => h w (by simp [hw]))
    simp [unparkGo, hu, hrec]

theorem unparkGo_length_le (plate : String) (now : Int) (l : List Vehicle) :
    (unparkGo plate now l).1.length ≤ l.length := by
  induction l with
  | nil => simp [unparkGo]
  | cons u us ih =>
    by_cases hu : u.licensePlate = plate
    · simp [unparkGo, hu]
    · simp only [unparkGo, if_neg hu, List.length_cons]
      exact Nat.succ_le_succ ih

/-! ### Claim theorems about admit and release -/

/-- C2: admitting at occupancy equal to the capacity (7) rejects the
vehicle and changes nothing, the caller being informed; admitting below
capacity appends the vehicle at the end and mutates nothing else. -/
theorem c2_park_full_or_append (lot : ParkingLot) (v : Vehicle) :
    (lot.parkedVehicles.length = capacity → parkVehicle lot v = (lot, false)) ∧
    (lot.parkedVehicles.length < capacity →
      (parkVehicle lot v).1.parkedVehicles = lot.parkedVehicles ++ [v] ∧
      (parkVehicle lot v).1.totalRevenue = lot.totalRevenue ∧
      (parkVehicle lot v).2 = true) ∧
    capacity = 7 := by
  refine ⟨?_, ?_, rfl⟩
  · intro h
    rw [parkVehicle, if_pos (le_of_eq h.symm)]
  · intro h
    rw [parkVehicle, if_neg (not_le.mpr h)]
    exact ⟨rfl, rfl, rfl⟩

/-- Witness for C2: a lot holding seven vehicles rejects an eighth; an
empty lot appends the admitted vehicle. -/
theorem c2_park_full_or_append_witness :
    (ParkingLot.mk [⟨"A", VType.Car, 1⟩, ⟨"B", VType.Car, 1⟩, ⟨"C", VType.Car, 1⟩,
        ⟨"D", VType.Car, 1⟩, ⟨"E", VType.Car, 1⟩, ⟨"F", VType.Car, 1⟩,
        ⟨"G", VType.Car, 1⟩] 0).parkedVehicles.length = capacity ∧
    parkVehicle (ParkingLot.mk [⟨"A", VType.Car, 1⟩, ⟨"B", VType.Car, 1⟩, ⟨"C", VType.Car, 1⟩,
        ⟨"D", VType.Car, 1⟩, ⟨"E", VType.Car, 1⟩, ⟨"F", VType.Car, 1⟩,
        ⟨"G", VType.Car, 1⟩] 0) ⟨"H", VType.Truck, 2⟩ =
      (ParkingLot.mk [⟨"A", VType.Car, 1⟩, ⟨"B", VType.Car, 1⟩, ⟨"C", VType.Car, 1⟩,
        ⟨"D", VType.Car, 1⟩, ⟨"E", VType.Car, 1⟩, ⟨"F", VType.Car, 1⟩,
        ⟨"G", VType.Car, 1⟩] 0, false) ∧
    (ParkingLot.mk [] 5).parkedVehicles.length < capacity ∧
    ((parkVehicle (ParkingLot.mk [] 5) ⟨"H", VType.Truck, 2⟩).1.parkedVehicles =
        (ParkingLot.mk [] 5).parkedVehicles ++ [⟨"H", VType.Truck, 2⟩] ∧
      (parkVehicle (ParkingLot.mk [] 5) ⟨"H", VType.Truck, 2⟩).1.totalRevenue =
        (ParkingLot.mk [] 5).totalRevenue ∧
      (parkVehicle (ParkingLot.mk [] 5) ⟨"H", VType.Truck, 2⟩).2 = true) :=
  ⟨by decide,
    (c2_park_full_or_append (ParkingLot.mk [⟨"A", VType.Car, 1⟩, ⟨"B", VType.Car, 1⟩, ⟨"C", VType.Car, 1⟩,
        ⟨"D", VType.Car, 1⟩, ⟨"E", VType.Car, 1⟩, ⟨"F", VType.Car, 1⟩,
        ⟨"G", VType.Car, 1⟩] 0) ⟨"H", VType.Truck, 2⟩).1 (by decide),
    by decide,
    (c2_park_full_or_append (ParkingLot.mk [] 5) ⟨"H", VType.Truck, 2⟩).2.1 (by decide)⟩

/-- C4: releasing a plate that is present removes exactly the
earliest-admitted matching vehicle, keeps every other vehicle in relative
order, adds exactly that vehicle's fee at the current time to the revenue,
and returns the receipt. -/
theorem c4_release_found (lot : ParkingLot) (pre post : List Vehicle) (v : Vehicle)
    (plate : String) (now : Int)
    (hsplit : lot.parkedVehicles = pre ++ v :: post)
    (hpre : ∀ u ∈ pre, u.licensePlate ≠ plate)
    (hv : v.licensePlate = plate) :
    (unparkVehicle lot plate now).1.parkedVehicles = pre ++ post ∧
    (unparkVehicle lot plate now).1.totalRevenue = lot.totalRevenue + v.calculateFee now ∧
    (unparkVehicle lot plate now).2 = some (v, v.calculateFee now) := by
  have hgo := unparkGo_found plate now pre post v hpre hv
  simp [unparkVehicle, hsplit, hgo]

/-- Witness for C4: a two-vehicle lot releases the second vehicle. -/
theorem c4_release_found_witness :
    (ParkingLot.mk [⟨"A", VType.Car, 0⟩, ⟨"B", VType.Truck, 5⟩] 3).parkedVehicles =
      [⟨"A", VType.Car, 0⟩] ++ (⟨"B", VType.Truck, 5⟩ : Vehicle) :: [] ∧
    (∀ u ∈ ([⟨"A", VType.Car, 0⟩] : List Vehicle), u.licensePlate ≠ "B") ∧
    ((unparkVehicle (ParkingLot.mk [⟨"A", VType.Car, 0⟩, ⟨"B", VType.Truck, 5⟩] 3) "B"
          10).1.parkedVehicles = [⟨"A", VType.Car, 0⟩] ++ [] ∧
      (unparkVehicle (ParkingLot.mk [⟨"A", VType.Car, 0⟩, ⟨"B", VType.Truck, 5⟩] 3) "B"
          10).1.totalRevenue =
        (ParkingLot.mk [⟨"A", VType.Car, 0⟩, ⟨"B", VType.Truck, 5⟩] 3).totalRevenue +
          Vehicle.calculateFee ⟨"B", VType.Truck, 5⟩ 10 ∧
      (unparkVehicle (ParkingLot.mk [⟨"A", VType.Car, 0⟩, ⟨"B", VType.Truck, 5⟩] 3) "B"
          10).2 = some (⟨"B", VType.Truck, 5⟩, Vehicle.calculateFee ⟨"B", VType.Truck, 5⟩ 10)) :=
  ⟨rfl, by decide,
    c4_release_found (ParkingLot.mk [⟨"A", VType.Car, 0⟩, ⟨"B", VType.Truck, 5⟩] 3)
      [⟨"A", VType.Car, 0⟩] [] ⟨"B", VType.Truck, 5⟩ "B" 10 rfl (by decide) rfl⟩

/-- C5: releasing a plate that no parked vehicle carries reports
not-found and performs no mutation at all. -/
theorem c5_release_missing (lot : ParkingLot) (plate : String) (now : Int)
    (h : ∀ u ∈ lot.parkedVehicles, u.licensePlate ≠ plate) :
    unparkVehicle lot plate now = (lot, none) := by
  have hgo := unparkGo_not_found plate now lot.parkedVehicles h
  simp [unparkVehicle, hgo]

/-- Witness for C5: the spec scenario, releasing plate XYZ from an empty
facility. -/
theorem c5_release_missing_witness :
    (∀ u ∈ (ParkingLot.mk [] 0).parkedVehicles, u.licensePlate ≠ "XYZ") ∧
    unparkVehicle (ParkingLot.mk [] 0) "XYZ" 100 = (ParkingLot.mk [] 0, none) :=
  ⟨by decide, c5_release_missing (ParkingLot.mk [] 0) "XYZ" 100 (by decide)⟩

/-! ### Decimal printing and parsing round trip -/

theorem parseNatAux_append (xs ys : List Char) (acc : Nat) :
    parseNatAux (xs ++ ys) acc =
      (parseNatAux xs acc).bind (fun m => parseNatAux ys m) := by
  induction xs generalizing acc with
  | nil => simp [parseNatAux]
  | cons c cs ih =>
    cases hd : digitVal c with
    | none => simp [parseNatAux, hd]
    | some d => simp [parseNatAux, hd, ih]

theorem digitVal_digitChar : ∀ d : Nat, d < 10 → digitVal (digitChar d) = some d := by
  decide

theorem natToDigitsAux_spec (fuel : Nat) :
    ∀ n acc, n < fuel →
      parseNatAux (natToDigitsAux fuel n) acc =
        some (acc * 10 ^ (natToDigitsAux fuel n).length + n) := by
  induction fuel with
  | zero => intro n acc h; omega
  | succ fuel ih =>
    intro n acc h
    by_cases h10 : n < 10
    · simp only [natToDigitsAux, if_pos h10]
      simp [parseNatAux, digitVal_digitChar n h10]
      omega
    · have hfuel : n / 10 < fuel := by
        have h1 : n / 10 < n := Nat.div_lt_self (by omega) (by omega)
        omega
      simp only [natToDigitsAux, if_neg h10]
      rw [parseNatAux_append, ih (n / 10) acc hfuel]
      have hm : n % 10 < 10 := Nat.mod_lt _ (by omega)
      simp [parseNatAux, digitVal_digitChar _ hm, List.length_append, pow_succ,
        ← mul_assoc]
      omega

theorem parseNat_natToDigits (n : Nat) : parseNat (natToDigits n) = some n := by
  have h := natToDigitsAux_spec (n + 1) n 0 (Nat.lt_succ_self n)
  rcases hcs : natToDigits n with _ | ⟨c, cs⟩
  · exfalso
    revert hcs
    unfold natToDigits natToDigitsAux
    by_cases h10 : n < 10 <;> simp [h10]
  · have hcs' : natToDigitsAux (n + 1) n = c :: cs := hcs
    rw [hcs'] at h
    simp only [zero_mul, zero_add] at h
    simpa [parseNat] using h

theorem natToDigitsAux_head (fuel : Nat) :
    ∀ n, n < fuel → ∃ d rest, d < 10 ∧ natToDigitsAux fuel n = digitChar d :: rest := by
  induction fuel with
  | zero => intro n h; omega
  | succ fuel ih =>
    intro n h
    by_cases h10 : n < 10
    · exact ⟨n, [], h10, by simp [natToDigitsAux, h10]⟩
    · have hfuel : n / 10 < fuel := by
        have h1 : n / 10 < n := Nat.div_lt_self (by omega) (by omega)
        omega
      obtain ⟨d, rest, hd, heq⟩ := ih (n / 10) hfuel
      exact ⟨d, rest ++ [digitChar (n % 10)], hd, by simp [natToDigitsAux, h10, heq]⟩

theorem digitChar_ne_sign : ∀ d : Nat, d < 10 → digitChar d ≠ '-' ∧ digitChar d ≠ '+' := by
  decide

theorem parseInt_intRepr (n : Int) : parseInt (intRepr n).data = some n := by
  rcases lt_or_le n 0 with hneg | hpos
  · rw [intRepr, if_pos hneg]
    show parseInt ('-' :: natToDigits (-n).toNat) = some n
    simp [parseInt, parseNat_natToDigits]
    omega
  · rw [intRepr, if_neg (not_lt.mpr hpos)]
    obtain ⟨d, rest, hd, heq⟩ :=
      natToDigitsAux_head (n.toNat + 1) n.toNat (Nat.lt_succ_self _)
    show parseInt (natToDigits n.toNat) = some n
    have hp := parseNat_natToDigits n.toNat
    rw [natToDigits, heq] at hp ⊢
    simp only [parseInt, if_neg (digitChar_ne_sign d hd).1,
      if_neg (digitChar_ne_sign d hd).2]
    rw [hp]
    simp
    omega

/-! ### Save/load round trip at the store level -/

theorem loadTokens_saveTokens (now : Int) (vs : List Vehicle) (rest : List String) :
    loadTokens now (saveTokens vs ++ rest) =
      vs.map (fun v => (⟨v.licensePlate, v.type,
        if v.entryTime = 0 then now else v.entryTime⟩ : Vehicle)) ++
        loadTokens now rest := by
  induction vs with
  | nil => simp [saveTokens]
  | cons v vstail ih =>
    rcases v with ⟨p, t, e⟩
    cases t <;>
      simp [saveTokens, loadTokens, parseInt_intRepr, typeName, Vehicle.mkV, ih]

theorem map_reload_eq (now : Int) (vs : List Vehicle)
    (hentry : ∀ v ∈ vs, v.entryTime ≠ 0) :
    vs.map (fun v => (⟨v.licensePlate, v.type,
      if v.entryTime = 0 then now else v.entryTime⟩ : Vehicle)) = vs := by
  induction vs with
  | nil => rfl
  | cons v tail ih =>
    simp only [List.map_cons]
    rw [if_neg (hentry v (by simp))]
    rw [ih (fun u hu => hentry u (by simp [hu]))]

theorem roundtrip_exact (now : Int) (vs : List Vehicle)
    (hentry : ∀ v ∈ vs, v.entryTime ≠ 0) :
    loadTokens now (saveTokens vs) = vs := by
  have h := loadTokens_saveTokens now vs []
  simp only [List.append_nil] at h
  rw [h, show loadTokens now ([] : List String) = [] from rfl, List.append_nil]
  exact map_reload_eq now vs hentry

/-! ### Claim theorems about the capacity invariant and persistence -/

/-- C3 counterexample: loadData performs no capacity check, so the
registry constructed from a store holding eight well-formed records has
eight parked vehicles, exceeding the capacity of 7. -/
theorem c3_capacity_counterexample :
    (ParkingLot.init 1 ["Car", "P1", "1", "Car", "P2", "1", "Car", "P3", "1",
        "Car", "P4", "1", "Car", "P5", "1", "Car", "P6", "1",
        "Car", "P7", "1", "Car", "P8", "1"]).parkedVehicles.length = 8 ∧
    ¬ ((ParkingLot.init 1 ["Car", "P1", "1", "Car", "P2", "1", "Car", "P3", "1",
        "Car", "P4", "1", "Car", "P5", "1", "Car", "P6", "1",
        "Car", "P7", "1", "Car", "P8", "1"]).parkedVehicles.length ≤ capacity) := by
  constructor
  · rfl
  · decide

/-- C3 amended: admit and release preserve the bound length ≤ capacity,
and so does reconstructing the registry from a store the program itself
saved from a within-bound state; loading an arbitrary external store,
however, is unbounded (see the counterexample). -/
theorem c3_capacity_amended (lot : ParkingLot) (v : Vehicle) (plate : String)
    (now tload : Int)
    (hlen : lot.parkedVehicles.length ≤ capacity) :
    (parkVehicle lot v).1.parkedVehicles.length ≤ capacity ∧
    (unparkVehicle lot plate now).1.parkedVehicles.length ≤ capacity ∧
    (ParkingLot.init tload (saveData lot)).parkedVehicles.length ≤ capacity := by
  refine ⟨?_, ?_, ?_⟩
  · rw [parkVehicle]
    by_cases hc : lot.parkedVehicles.length ≥ capacity
    · rw [if_pos hc]
      exact hlen
    · rw [if_neg hc]
      simp only [List.length_append, List.length_cons, List.length_nil]
      omega
  · rcases hgo : unparkGo plate now lot.parkedVehicles with ⟨l, r⟩
    have hle : l.length ≤ lot.parkedVehicles.length := by
      have h := unparkGo_length_le plate now lot.parkedVehicles
      rw [hgo] at h
      exact h
    cases r with
    | none =>
      simp only [unparkVehicle, hgo]
      exact hlen
    | some rec =>
      simp only [unparkVehicle, hgo]
      exact le_trans hle hlen
  · show (loadTokens tload (saveTokens lot.parkedVehicles)).length ≤ capacity
    have h := loadTokens_saveTokens tload lot.parkedVehicles []
    simp only [List.append_nil] at h
    rw [h, show loadTokens tload ([] : List String) = [] from rfl, List.append_nil,
      List.length_map]
    exact hlen

/-- Witness for C3 amended, on a one-vehicle lot. -/
theorem c3_capacity_amended_witness :
    (ParkingLot.mk [⟨"A", VType.Car, 3⟩] 2).parkedVehicles.length ≤ capacity ∧
    ((parkVehicle (ParkingLot.mk [⟨"A", VType.Car, 3⟩] 2)
        ⟨"B", VType.Motorbike, 4⟩).1.parkedVehicles.length ≤ capacity ∧
      (unparkVehicle (ParkingLot.mk [⟨"A", VType.Car, 3⟩] 2) "Z"
          9).1.parkedVehicles.length ≤ capacity ∧
      (ParkingLot.init 4
          (saveData (ParkingLot.mk [⟨"A", VType.Car, 3⟩] 2))).parkedVehicles.length ≤
        capacity) :=
  ⟨by decide,
    c3_capacity_amended (ParkingLot.mk [⟨"A", VType.Car, 3⟩] 2) ⟨"B", VType.Motorbike, 4⟩
      "Z" 9 4 (by decide)⟩

/-- C6 counterexample: the Vehicle constructor treats a stored entry
instant of 0 as "use the current time", so a parked set containing a
vehicle with entry instant 0, saved and reloaded at clock value 5,
comes back with a different entry instant. -/
theorem c6_roundtrip_counterexample :
    loadTokens 5 (saveTokens [⟨"A", VType.Car, 0⟩]) ≠ [⟨"A", VType.Car, 0⟩] := by
  decide

/-- C6 amended: for every parked set whose plates are non-empty
whitespace-free tokens and whose entry instants are all different from 0,
saving and then loading the resulting store (with no time elapsed)
reproduces exactly the same sequence of (category, plate, entry-instant)
triples in the same admission order; a record whose stored entry instant
is exactly 0 is instead reconstructed with the loader's clock value. -/
theorem c6_roundtrip_amended (vs : List Vehicle) (now : Int)
    (hplate : ∀ v ∈ vs, tokenOk v.licensePlate = true)
    (hentry : ∀ v ∈ vs, v.entryTime ≠ 0) :
    loadTokens now (saveTokens vs) = vs :=
  roundtrip_exact now vs hentry

/-- Witness for C6 amended on a two-vehicle parked set. -/
theorem c6_roundtrip_amended_witness :
    (∀ v ∈ ([⟨"ABC", VType.Car, 100⟩, ⟨"XY", VType.Motorbike, 7⟩] : List Vehicle),
      tokenOk v.licensePlate = true) ∧
    (∀ v ∈ ([⟨"ABC", VType.Car, 100⟩, ⟨"XY", VType.Motorbike, 7⟩] : List Vehicle),
      v.entryTime ≠ 0) ∧
    loadTokens 100 (saveTokens [⟨"ABC", VType.Car, 100⟩, ⟨"XY", VType.Motorbike, 7⟩]) =
      [⟨"ABC", VType.Car, 100⟩, ⟨"XY", VType.Motorbike, 7⟩] :=
  ⟨by decide, by decide,
    c6_roundtrip_amended [⟨"ABC", VType.Car, 100⟩, ⟨"XY", VType.Motorbike, 7⟩] 100
      (by decide) (by decide)⟩

/-- C7 counterexample: on the store "Car A 5 / Car B (missing timestamp) /
Truck C 7" the loader consumes the token Truck as the timestamp of the
malformed record, fails to parse it, and exits: only the record before
the malformed line is loaded, and the well-formed record after it is
lost instead of being loaded as the claim states. -/
theorem c7_malformed_counterexample :
    loadTokens 1 ["Car", "A", "5", "Car", "B", "Truck", "C", "7"] =
      [⟨"A", VType.Car, 5⟩] ∧
    (⟨"C", VType.Truck, 7⟩ : Vehicle) ∉
      loadTokens 1 ["Car", "A", "5", "Car", "B", "Truck", "C", "7"] := by
  constructor
  · rfl
  · decide

theorem parseInt_head_not_digit (c : Char) (cs : List Char)
    (hnd : digitVal c = none) (hns1 : c ≠ '-') (hns2 : c ≠ '+') :
    parseInt (c :: cs) = none := by
  simp [parseInt, hns1, hns2, parseNat, parseNatAux, hnd]

/-- C7 amended: loading does not in general survive a malformed record:
when the timestamp field fails to extract, the stream enters the fail
state and loading stops, so every well-formed record before the malformed
one is loaded correctly while the malformed record and everything after
it are dropped.  The statement covers the claim's own failure shape — a
timestamp token whose first character is neither a digit nor a sign, as
when the timestamp is missing and the next record's category name is read
in its place, where formatted extraction fails at once with nothing
consumed — and the one genuine skip the loader performs: a record whose
category name is unrecognised but whose timestamp is a numeral within the
signed 64-bit time_t range is dropped silently and loading continues. -/
theorem c7_malformed_amended (vs : List Vehicle) (now : Int)
    (hplate : ∀ v ∈ vs, tokenOk v.licensePlate = true)
    (hentry : ∀ v ∈ vs, v.entryTime ≠ 0)
    (t p e : String) (rest : List String) (c : Char)
    (hhead : e.data.head? = some c)
    (hnd : digitVal c = none) (hns1 : c ≠ '-') (hns2 : c ≠ '+')
    (t2 p2 e2 : String) (k : Int)
    (hgood : parseInt e2.data = some k)
    (hrange : -(2 ^ 63) ≤ k ∧ k < 2 ^ 63)
    (hunk : t2 ≠ "Car" ∧ t2 ≠ "Truck" ∧ t2 ≠ "Motorbike") :
    loadTokens now (saveTokens vs ++ t :: p :: e :: rest) = vs ∧
    loadTokens now (t2 :: p2 :: e2 :: saveTokens vs) = vs := by
  have hbad : parseInt e.data = none := by
    rcases he : e.data with _ | ⟨c0, cs⟩
    · rfl
    · rw [he] at hhead
      simp only [List.head?_cons, Option.some.injEq] at hhead
      subst hhead
      exact parseInt_head_not_digit _ cs hnd hns1 hns2
  constructor
  · rw [loadTokens_saveTokens, map_reload_eq now vs hentry]
    simp [loadTokens, hbad]
  · simp only [loadTokens, hgood]
    rw [if_neg hunk.1, if_neg hunk.2.1, if_neg hunk.2.2]
    exact roundtrip_exact now vs hentry

/-- Witness for C7 amended: one good record, then a record missing its
timestamp (the category token Truck, starting with the non-digit T, is
read as the timestamp), and separately one unrecognised category record
with the in-range timestamp 9 before a good record. -/
theorem c7_malformed_amended_witness :
    (∀ v ∈ ([⟨"A", VType.Car, 5⟩] : List Vehicle), tokenOk v.licensePlate = true) ∧
    (∀ v ∈ ([⟨"A", VType.Car, 5⟩] : List Vehicle), v.entryTime ≠ 0) ∧
    (String.data "Truck").head? = some 'T' ∧
    digitVal 'T' = none ∧
    ('T' ≠ '-' ∧ 'T' ≠ '+') ∧
    parseInt (String.data "9") = some 9 ∧
    (-(2 ^ 63) ≤ (9 : Int) ∧ (9 : Int) < 2 ^ 63) ∧
    ("Bike" ≠ "Car" ∧ "Bike" ≠ "Truck" ∧ "Bike" ≠ "Motorbike") ∧
    (loadTokens 1 (saveTokens [⟨"A", VType.Car, 5⟩] ++
        "Car" :: "B" :: "Truck" :: ["C", "7"]) = [⟨"A", VType.Car, 5⟩] ∧
      loadTokens 1 ("Bike" :: "X" :: "9" :: saveTokens [⟨"A", VType.Car, 5⟩]) =
        [⟨"A", VType.Car, 5⟩]) :=
  ⟨by decide, by decide, by decide, by decide, ⟨by decide, by decide⟩, by decide,
    by norm_num, by decide,
    c7_malformed_amended [⟨"A", VType.Car, 5⟩] 1 (by decide) (by decide)
      "Car" "B" "Truck" ["C", "7"] 'T' (by decide) (by decide) (by decide) (by decide)
      "Bike" "X" "9" 9 (by decide) (by norm_num) (by decide)⟩

/-- C9: revenue is not persisted: a registry constructed from any store
starts with cumulative revenue 0; saveData writes only the parked
vehicles' records and its output does not depend on the revenue
accumulator; and the parked set of a just-saved store is restored. -/
theorem c9_revenue_not_persisted (lot : ParkingLot) (store : List String) (now : Int)
    (hplate : ∀ v ∈ lot.parkedVehicles, tokenOk v.licensePlate = true)
    (hentry : ∀ v ∈ lot.parkedVehicles, v.entryTime ≠ 0) :
    (ParkingLot.init now store).totalRevenue = 0 ∧
    (∀ r : ℚ, saveData (ParkingLot.mk lot.parkedVehicles r) = saveData lot) ∧
    (ParkingLot.init now (saveData lot)).parkedVehicles = lot.parkedVehicles := by
  refine ⟨rfl, fun r => rfl, ?_⟩
  show loadTokens now (saveTokens lot.parkedVehicles) = lot.parkedVehicles
  exact roundtrip_exact now lot.parkedVehicles hentry

/-- Witness for C9 on a one-vehicle lot with non-zero revenue. -/
theorem c9_revenue_not_persisted_witness :
    (∀ v ∈ (ParkingLot.mk [⟨"Q", VType.Motorbike, 50⟩] 77).parkedVehicles,
      tokenOk v.licensePlate = true) ∧
    (∀ v ∈ (ParkingLot.mk [⟨"Q", VType.Motorbike, 50⟩] 77).parkedVehicles,
      v.entryTime ≠ 0) ∧
    ((ParkingLot.init 50 ["Car", "Z", "9"]).totalRevenue = 0 ∧
      (∀ r : ℚ, saveData (ParkingLot.mk
          (ParkingLot.mk [⟨"Q", VType.Motorbike, 50⟩] 77).parkedVehicles r) =
        saveData (ParkingLot.mk [⟨"Q", VType.Motorbike, 50⟩] 77)) ∧
      (ParkingLot.init 50
          (saveData (ParkingLot.mk [⟨"Q", VType.Motorbike, 50⟩] 77))).parkedVehicles =
        (ParkingLot.mk [⟨"Q", VType.Motorbike, 50⟩] 77).parkedVehicles) :=
  ⟨by decide, by decide,
    c9_revenue_not_persisted (ParkingLot.mk [⟨"Q", VType.Motorbike, 50⟩] 77)
      ["Car", "Z", "9"] 50 (by decide) (by decide)⟩
